import Mathlib

/-
  Shallow embedding of examples/esp32/apps/memfault_demo_app/main/cmd_system.c.

  The module registers console command handlers.  The two handlers with
  observable logic are modelled here:

  * `make` : reads a persisted 32-bit invocation counter from the RTC store
    register, refuses after the count reaches 3, otherwise writes the
    incremented count back, scans its argument vector and replays canned
    build / flash / monitor transcript blocks.
  * `tasks_info` : allocates a buffer for the task list, failing with
    status 1 when the allocation fails, otherwise printing a header, the
    task records, releasing the buffer and returning 0.

  Observable behaviour (printf output, delays, restart, register writes)
  is reified as explicit data:  a list of `Event`s, a `MakeResult`
  (normal return with a status, or a platform restart that never returns)
  and the new register value.  The register holds an unsigned 32-bit
  value; the C code reads it into a signed `int`, so the uint32 -> int
  conversion (two's complement reinterpretation) and the int -> uint32
  truncation on write-back are made explicit.
-/

/-- Two's complement reinterpretation of a 32-bit register value as a C
`int`, as performed by `int count = REG_READ(RTC_CNTL_STORE0_REG)`. -/
def u32_to_int (r : Nat) : Int :=
  if r % 4294967296 < 2147483648 then ((r % 4294967296 : Nat) : Int)
  else ((r % 4294967296 : Nat) : Int) - 4294967296

/-- Truncation of a C `int` to the 32-bit register width, as performed by
`REG_WRITE(RTC_CNTL_STORE0_REG, count)`. -/
def int_to_u32 (i : Int) : Nat :=
  (i % 4294967296).toNat

/-- One observable step of a `make` invocation: a `printf` of a string, or
a `vTaskDelay` suspension (argument in milliseconds). -/
inductive Event where
  | print (s : String)
  | delay (ms : Nat)
deriving DecidableEq, Repr

/-- How a `make` invocation ends: a normal `return status`, or
`esp_restart()`, which never returns. -/
inductive MakeResult where
  | returns (status : Int)
  | restart
deriving DecidableEq, Repr

/-- Full observable outcome of one `make` invocation: the printed and
delayed events in order, how control ends, and the value left in the
RTC store register. -/
structure MakeOutcome where
  events : List Event
  result : MakeResult
  reg : Nat
deriving DecidableEq, Repr

/-- Result of the argument-scanning loop of `make`: either the loop ran to
completion with the accumulated phase flags, or it hit an unknown target
token and the handler returns early. -/
inductive ScanOut where
  | done (need_make need_flash need_monitor : Bool)
  | badToken (t : String)
deriving DecidableEq, Repr

/-- First character of a C string: the terminating NUL for the empty
string (this is what `argv[i][0]` yields). -/
def c_char0 (s : String) : Char :=
  match s.data with
  | [] => '\x00'
  | c :: _ => c

/-- The argument-scanning loop of `make` (`for (int i = 1; i < argc; ++i)`),
carrying the three phase flags; `strcmp` comparisons against `"all"`,
`"flash"`, `"monitor"`, then the leading-dash and leading-digit skips,
otherwise the unknown-target early return. -/
def makeScanArgs (need_make need_flash need_monitor : Bool) : List String → ScanOut
  | [] => ScanOut.done need_make need_flash need_monitor
  | t :: rest =>
    if t = "all" then makeScanArgs true need_flash need_monitor rest
    else if t = "flash" then makeScanArgs true true need_monitor rest
    else if t = "monitor" then makeScanArgs need_make need_flash true rest
    else if c_char0 t = '-' then makeScanArgs need_make need_flash need_monitor rest
    else if (c_char0 t).isDigit then makeScanArgs need_make need_flash need_monitor rest
    else ScanOut.badToken t

/-- A token the scanning loop consumes without an early return: one of the
three known targets, an option-like token starting with a dash, or a token
starting with a digit. -/
def make_target_recognized (t : String) : Prop :=
  t = "all" ∨ t = "flash" ∨ t = "monitor" ∨ c_char0 t = '-' ∨ (c_char0 t).isDigit = true

instance (t : String) : Decidable (make_target_recognized t) := by
  unfold make_target_recognized; infer_instance

/-- The refusal line printed once the invocation counter reaches 3. -/
def refusal_line : String :=
  "This is not the console you are looking for.\n"

/-- The cosmetic unknown-target error line,
`printf("make: *** No rule to make target \x60%s\x27.  Stop.\n", argv[i])`. -/
def noRuleLine (t : String) : String :=
  "make: *** No rule to make target \x60" ++ t ++ "\x27.  Stop.\n"

/-- The canned link-step block printed for the make phase. -/
def make_output : String :=
  "LD build/console.elf\nesptool.py v2.1-beta1\n"

/-- flash_output[0]. -/
def flash_output_0 : String :=
  "Flashing binaries to serial port (*) (app at offset 0x10000)...\nesptool.py v2.1-beta1\nConnecting....\n"

/-- flash_output[1]. -/
def flash_output_1 : String :=
  "Chip is ESP32D0WDQ6 (revision 0)\nUploading stub...\nRunning stub...\nStub running...\nChanging baud rate to 921600\nChanged.\nConfiguring flash size...\nAuto-detected Flash size: 4MB\nFlash params set to 0x0220\nCompressed 15712 bytes to 9345...\n"

/-- flash_output[2]. -/
def flash_output_2 : String :=
  "Wrote 15712 bytes (9345 compressed) at 0x00001000 in 0.1 seconds (effective 1126.9 kbit/s)...\nHash of data verified.\nCompressed 333776 bytes to 197830...\n"

/-- flash_output[3]. -/
def flash_output_3 : String :=
  "Wrote 333776 bytes (197830 compressed) at 0x00010000 in 3.3 seconds (effective 810.3 kbit/s)...\nHash of data verified.\nCompressed 3072 bytes to 82...\n"

/-- flash_output[4]. -/
def flash_output_4 : String :=
  "Wrote 3072 bytes (82 compressed) at 0x00008000 in 0.0 seconds (effective 1588.4 kbit/s)...\nHash of data verified.\nLeaving...\nHard resetting...\n"

/-- The five canned flash-transcript blocks, in array order. -/
def flash_output : List String :=
  [flash_output_0, flash_output_1, flash_output_2, flash_output_3, flash_output_4]

/-- ANSI colour prefix LOG_COLOR_W from the external esp_log.h header
(warning colour, brown). -/
def LOG_COLOR_W : String := "\x1b[0;33m"

/-- ANSI reset suffix LOG_RESET_COLOR from the external esp_log.h header. -/
def LOG_RESET_COLOR : String := "\x1b[0m"

/-- The canned serial-monitor banner block. -/
def monitor_output : String :=
  "MONITOR\n" ++ LOG_COLOR_W ++ "--- idf_monitor on (*) 115200 ---\n--- Quit: Ctrl+] | Menu: Ctrl+T | Help: Ctrl+T followed by Ctrl+H --\n" ++ LOG_RESET_COLOR

/-- The `make` handler.  `reg` is the current value of RTC_CNTL_STORE0_REG,
`args` is argv[1..] (so `args = []` is the `argc == 1` case).  Mirrors the
source line by line: read the counter, refuse once the incremented count
reaches 3, otherwise write the incremented count back, scan the arguments,
and print the requested phase blocks; the monitor phase ends in
`esp_restart()`. -/
def make (reg : Nat) (args : List String) : MakeOutcome :=
  if 3 ≤ u32_to_int reg + 1 then
    { events := [Event.print refusal_line], result := MakeResult.returns 0, reg := reg }
  else
    match makeScanArgs false false false args with
    | ScanOut.badToken t =>
      { events := [Event.print (noRuleLine t)], result := MakeResult.returns 0,
        reg := int_to_u32 (u32_to_int reg + 1) }
    | ScanOut.done nm nf nmon =>
      { events :=
          (if (nm || args.isEmpty) then [Event.print make_output] else []) ++
          (if nf then (flash_output.map (fun s => [Event.print s, Event.delay 200])).flatten else []) ++
          (if nmon then [Event.print monitor_output] else []),
        result := if nmon then MakeResult.restart else MakeResult.returns 0,
        reg := int_to_u32 (u32_to_int reg + 1) }

/-- The outcome of a refusing `make` invocation: exactly the refusal line,
return status 0, register untouched. -/
def make_refusal_outcome (reg : Nat) : MakeOutcome :=
  { events := [Event.print refusal_line], result := MakeResult.returns 0, reg := reg }

/-- One observable step of a `tasks` invocation: an ESP_LOGE error log, a
write to stdout, or releasing the task-list buffer. -/
inductive TaskEvent where
  | log_error (msg : String)
  | stdout (s : String)
  | free_buffer
deriving DecidableEq, Repr

/-- Header line printed by `tasks_info`. -/
def tasks_header : String := "Task Name\tStatus\tPrio\tHWM\tTask Number\n"

/-- Error message logged by `tasks_info` when malloc returns NULL. -/
def tasks_alloc_error_msg : String := "failed to allocate buffer for vTaskList output"

/-- The `tasks` handler.  `alloc_ok` models whether
`malloc(uxTaskGetNumberOfTasks() * bytes_per_task)` succeeds (the heap is
an external collaborator), `task_list` models the text `vTaskList` writes
into the buffer.  On allocation failure: log and return 1.  Otherwise:
print the header, print the filled buffer, free it, return 0. -/
def tasks_info (alloc_ok : Bool) (task_list : String) : List TaskEvent × Int :=
  if alloc_ok = false then
    ([TaskEvent.log_error tasks_alloc_error_msg], 1)
  else
    ([TaskEvent.stdout tasks_header, TaskEvent.stdout task_list, TaskEvent.free_buffer], 0)

/- Helper lemmas -/

lemma u32_to_int_of_lt (r : Nat) (h : r < 2147483648) : u32_to_int r = r := by
  unfold u32_to_int
  split_ifs with h2 <;> omega

lemma int_to_u32_succ (r : Nat) : int_to_u32 (u32_to_int r + 1) = (r + 1) % 4294967296 := by
  unfold u32_to_int int_to_u32
  split_ifs with h <;> omega

lemma int_to_u32_succ_ne (r : Nat) : int_to_u32 (u32_to_int r + 1) ≠ r := by
  rw [int_to_u32_succ]
  omega

lemma make_reg_spec (reg : Nat) (args : List String) :
    (make reg args).reg =
      if 3 ≤ u32_to_int reg + 1 then reg else int_to_u32 (u32_to_int reg + 1) := by
  unfold make
  rcases le_or_lt 3 (u32_to_int reg + 1) with h | h
  · rw [if_pos h, if_pos h]
  · rw [if_neg (not_le.mpr h), if_neg (not_le.mpr h)]
    cases hs : makeScanArgs false false false args <;> rfl

lemma make_refusal_eq (reg : Nat) (args : List String) (h : 3 ≤ u32_to_int reg + 1) :
    make reg args = make_refusal_outcome reg := by
  unfold make
  rw [if_pos h]
  rfl

lemma make_eq_of_scan_badToken (reg : Nat) (args : List String) (t : String)
    (h : u32_to_int reg + 1 < 3)
    (hs : makeScanArgs false false false args = ScanOut.badToken t) :
    make reg args =
      { events := [Event.print (noRuleLine t)], result := MakeResult.returns 0,
        reg := int_to_u32 (u32_to_int reg + 1) } := by
  unfold make
  rw [if_neg (not_le.mpr h), hs]

lemma make_refused_iff (reg : Nat) (args : List String) :
    make reg args = make_refusal_outcome reg ↔ 3 ≤ u32_to_int reg + 1 := by
  constructor
  · intro h
    by_contra hlt
    have h1 : (make reg args).reg = int_to_u32 (u32_to_int reg + 1) := by
      rw [make_reg_spec, if_neg hlt]
    rw [h] at h1
    exact int_to_u32_succ_ne reg h1.symm
  · exact make_refusal_eq reg args

lemma makeScanArgs_cons_recognized (u : String) (l : List String)
    (nm nf nmon : Bool) (hu : make_target_recognized u) :
    ∃ a b c, makeScanArgs nm nf nmon (u :: l) = makeScanArgs a b c l := by
  simp only [makeScanArgs]
  split_ifs with h1 h2 h3 h4 h5
  · exact ⟨_, _, _, rfl⟩
  · exact ⟨_, _, _, rfl⟩
  · exact ⟨_, _, _, rfl⟩
  · exact ⟨_, _, _, rfl⟩
  · exact ⟨_, _, _, rfl⟩
  · rcases hu with h | h | h | h | h
    · exact absurd h h1
    · exact absurd h h2
    · exact absurd h h3
    · exact absurd h h4
    · exact absurd h h5

lemma makeScanArgs_badToken (t : String) (rest : List String)
    (ht : ¬ make_target_recognized t) :
    ∀ (pre : List String), (∀ u ∈ pre, make_target_recognized u) →
      ∀ nm nf nmon, makeScanArgs nm nf nmon (pre ++ t :: rest) = ScanOut.badToken t := by
  intro pre
  induction pre with
  | nil =>
    intro _ nm nf nmon
    unfold make_target_recognized at ht
    push_neg at ht
    obtain ⟨n1, n2, n3, n4, n5⟩ := ht
    rw [List.nil_append]
    simp only [makeScanArgs]
    rw [if_neg n1, if_neg n2, if_neg n3, if_neg n4, if_neg n5]
  | cons u pre ih =>
    intro hall nm nf nmon
    have hu : make_target_recognized u := hall u (List.mem_cons_self u pre)
    obtain ⟨a, b, c, heq⟩ :=
      makeScanArgs_cons_recognized u (pre ++ t :: rest) nm nf nmon hu
    rw [List.cons_append, heq]
    exact ih (fun v hv => hall v (List.mem_cons_of_mem u hv)) a b c

/- Claim theorems -/

/-- C1 (counterexample): with arguments `bogus all` and the counter at 0,
the handler prints only the no-rule error line for `bogus` and returns;
the make-phase block requested by the later token `all` is not printed, so
the unknown token does abort the rest of the command. -/
theorem make_unknown_token_aborts_cex :
    make 0 ["bogus", "all"] =
      { events := [Event.print (noRuleLine "bogus")], result := MakeResult.returns 0,
        reg := 1 } ∧
    ((make 0 ["bogus", "all"]).events.contains (Event.print make_output)) = false := by
  decide

/-- C1 (amended): when the argument scan reaches a token that is not
`all`, `flash`, or `monitor` and starts with neither a dash nor a digit,
the handler prints exactly one no-rule error line for that token and
returns success immediately; the remaining arguments are not scanned and
no phase block is printed, but the incremented counter has already been
persisted. -/
theorem make_unknown_token_stops_scan :
    ∀ (reg : Nat) (pre : List String) (t : String) (rest : List String),
      u32_to_int reg + 1 < 3 →
      (∀ u ∈ pre, make_target_recognized u) →
      ¬ make_target_recognized t →
      make reg (pre ++ t :: rest) =
        { events := [Event.print (noRuleLine t)], result := MakeResult.returns 0,
          reg := int_to_u32 (u32_to_int reg + 1) } := by
  intro reg pre t rest h hall ht
  exact make_eq_of_scan_badToken reg _ t h
    (makeScanArgs_badToken t rest ht pre hall false false false)

/-- C1 (witness): instantiation at counter 0 with arguments
`all bogus flash`. -/
theorem make_unknown_token_stops_scan_witness :
    u32_to_int 0 + 1 < 3 ∧
    make 0 (["all"] ++ "bogus" :: ["flash"]) =
      { events := [Event.print (noRuleLine "bogus")], result := MakeResult.returns 0,
        reg := int_to_u32 (u32_to_int 0 + 1) } :=
  ⟨by decide,
   make_unknown_token_stops_scan 0 ["all"] "bogus" ["flash"]
     (by decide) (by decide) (by decide)⟩

/-- C2 (counterexample): at register value 2 the invocation ends in the
refusal line and the register still holds 2 afterwards, while the
incremented count would have been 3; the increment is not persisted on a
refusal invocation. -/
theorem make_refusal_leaves_register_unchanged_cex :
    (make 2 []).events = [Event.print refusal_line] ∧
    (make 2 []).reg = 2 ∧
    int_to_u32 (u32_to_int 2 + 1) = 3 := by
  decide

/-- C2 (amended): the counter is read on every invocation and the
incremented value is written back exactly when that value is below 3; on
invocations that end in the refusal line the register is left unchanged,
and for counters in the demo range the module never decreases the
register, so it never resets the counter. -/
theorem make_persists_counter_only_below_threshold :
    ∀ (reg : Nat) (args : List String),
      (u32_to_int reg + 1 < 3 → (make reg args).reg = int_to_u32 (u32_to_int reg + 1)) ∧
      (3 ≤ u32_to_int reg + 1 → (make reg args).reg = reg) ∧
      (reg < 3 → reg ≤ (make reg args).reg) := by
  intro reg args
  refine ⟨fun h => by rw [make_reg_spec, if_neg (not_le.mpr h)],
          fun h => by rw [make_reg_spec, if_pos h],
          fun h3 => ?_⟩
  rw [make_reg_spec]
  split_ifs with h
  · exact le_refl reg
  · have hc : u32_to_int reg = reg := u32_to_int_of_lt reg (by omega)
    rw [hc] at h
    rw [int_to_u32_succ]
    omega

/-- C2 (witness): instantiations at register values 0 and 3. -/
theorem make_persists_counter_only_below_threshold_witness :
    (make 0 []).reg = int_to_u32 (u32_to_int 0 + 1) ∧
    (make 3 []).reg = 3 ∧
    0 ≤ (make 0 []).reg :=
  ⟨(make_persists_counter_only_below_threshold 0 []).1 (by decide),
   (make_persists_counter_only_below_threshold 3 []).2.1 (by decide),
   (make_persists_counter_only_below_threshold 0 []).2.2 (by decide)⟩

/-- C3: whenever incrementing the persisted counter reaches or exceeds 3,
`make` prints exactly the refusal line, performs no other output, prints
no phase block, leaves the register unchanged and returns. -/
theorem make_refuses_at_threshold :
    ∀ (reg : Nat) (args : List String), 3 ≤ u32_to_int reg + 1 →
      make reg args =
        { events := [Event.print refusal_line], result := MakeResult.returns 0,
          reg := reg } := by
  intro reg args h
  exact make_refusal_eq reg args h

/-- C3 (witness): starting from a counter of 0, the first two invocations
store 1 and 2, and the third invocation refuses. -/
theorem make_refuses_at_threshold_witness :
    (make 0 []).reg = 1 ∧ (make 1 []).reg = 2 ∧ 3 ≤ u32_to_int 2 + 1 ∧
    make 2 [] =
      { events := [Event.print refusal_line], result := MakeResult.returns 0,
        reg := 2 } :=
  ⟨by decide, by decide, by decide, make_refuses_at_threshold 2 [] (by decide)⟩

/-- C4: with the single argument `flash` and the counter below the
threshold, `make` prints the make block first, then the five canned flash
blocks in array order, each followed by one 200 ms delay, and returns 0. -/
theorem make_flash_transcript :
    ∀ (reg : Nat), u32_to_int reg + 1 < 3 →
      (make reg ["flash"]).events =
        [Event.print make_output,
         Event.print flash_output_0, Event.delay 200,
         Event.print flash_output_1, Event.delay 200,
         Event.print flash_output_2, Event.delay 200,
         Event.print flash_output_3, Event.delay 200,
         Event.print flash_output_4, Event.delay 200] ∧
      (make reg ["flash"]).result = MakeResult.returns 0 ∧
      flash_output = [flash_output_0, flash_output_1, flash_output_2,
        flash_output_3, flash_output_4] := by
  intro reg h
  have hm : make reg ["flash"] =
      { events := [Event.print make_output,
          Event.print flash_output_0, Event.delay 200,
          Event.print flash_output_1, Event.delay 200,
          Event.print flash_output_2, Event.delay 200,
          Event.print flash_output_3, Event.delay 200,
          Event.print flash_output_4, Event.delay 200],
        result := MakeResult.returns 0, reg := int_to_u32 (u32_to_int reg + 1) } := by
    unfold make
    rw [if_neg (not_le.mpr h)]
    rfl
  exact ⟨by rw [hm], by rw [hm], rfl⟩

/-- C4 (witness): instantiation at counter 0. -/
theorem make_flash_transcript_witness :
    u32_to_int 0 + 1 < 3 ∧
    ((make 0 ["flash"]).events =
        [Event.print make_output,
         Event.print flash_output_0, Event.delay 200,
         Event.print flash_output_1, Event.delay 200,
         Event.print flash_output_2, Event.delay 200,
         Event.print flash_output_3, Event.delay 200,
         Event.print flash_output_4, Event.delay 200] ∧
      (make 0 ["flash"]).result = MakeResult.returns 0 ∧
      flash_output = [flash_output_0, flash_output_1, flash_output_2,
        flash_output_3, flash_output_4]) :=
  ⟨by decide, make_flash_transcript 0 (by decide)⟩

/-- C5: with the argument `monitor` and the counter below the threshold,
`make` prints the monitor banner block and then triggers a platform
restart, so the call never returns normally. -/
theorem make_monitor_restarts :
    ∀ (reg : Nat), u32_to_int reg + 1 < 3 →
      (make reg ["monitor"]).events = [Event.print monitor_output] ∧
      (make reg ["monitor"]).result = MakeResult.restart := by
  intro reg h
  have hm : make reg ["monitor"] =
      { events := [Event.print monitor_output], result := MakeResult.restart,
        reg := int_to_u32 (u32_to_int reg + 1) } := by
    unfold make
    rw [if_neg (not_le.mpr h)]
    rfl
  exact ⟨by rw [hm], by rw [hm]⟩

/-- C5 (witness): instantiation at counter 0. -/
theorem make_monitor_restarts_witness :
    u32_to_int 0 + 1 < 3 ∧
    ((make 0 ["monitor"]).events = [Event.print monitor_output] ∧
      (make 0 ["monitor"]).result = MakeResult.restart) :=
  ⟨by decide, make_monitor_restarts 0 (by decide)⟩

/-- C6: with the single unknown argument `bogus` and the counter below the
threshold, `make` prints exactly the no-rule line for `bogus` and returns
status 0, not an error status. -/
theorem make_bogus_cosmetic_error :
    ∀ (reg : Nat), u32_to_int reg + 1 < 3 →
      (make reg ["bogus"]).events =
        [Event.print "make: *** No rule to make target \x60bogus\x27.  Stop.\n"] ∧
      (make reg ["bogus"]).result = MakeResult.returns 0 := by
  intro reg h
  have hm := make_eq_of_scan_badToken reg ["bogus"] "bogus" h (by decide)
  constructor
  · rw [hm]
    show [Event.print (noRuleLine "bogus")] = _
    decide
  · rw [hm]

/-- C6 (witness): instantiation at counter 0. -/
theorem make_bogus_cosmetic_error_witness :
    u32_to_int 0 + 1 < 3 ∧
    ((make 0 ["bogus"]).events =
        [Event.print "make: *** No rule to make target \x60bogus\x27.  Stop.\n"] ∧
      (make 0 ["bogus"]).result = MakeResult.returns 0) :=
  ⟨by decide, make_bogus_cosmetic_error 0 (by decide)⟩

/-- C7: starting from a counter of 0, the first and second invocations of
`make` with no arguments or with the single argument `all` each print
exactly the make-phase block (no refusal line, no other phase), return 0,
and advance the stored counter to 1 and then 2. -/
theorem make_first_two_invocations_no_refusal :
    make 0 [] =
      { events := [Event.print make_output], result := MakeResult.returns 0, reg := 1 } ∧
    make 1 [] =
      { events := [Event.print make_output], result := MakeResult.returns 0, reg := 2 } ∧
    make 0 ["all"] =
      { events := [Event.print make_output], result := MakeResult.returns 0, reg := 1 } ∧
    make 1 ["all"] =
      { events := [Event.print make_output], result := MakeResult.returns 0, reg := 2 } := by
  decide

/-- C8: when the buffer allocation in `tasks_info` fails, the handler logs
one error, returns status 1 and produces no stdout output and no release
event; when the allocation succeeds, it prints the header line and the
task records, releases the buffer and returns 0. -/
theorem tasks_info_alloc_failure_and_success :
    ∀ (task_list : String),
      tasks_info false task_list = ([TaskEvent.log_error tasks_alloc_error_msg], 1) ∧
      tasks_info true task_list =
        ([TaskEvent.stdout tasks_header, TaskEvent.stdout task_list,
          TaskEvent.free_buffer], 0) :=
  fun _ => ⟨rfl, rfl⟩

/-- C9: starting below 3 the register stays below 3 after any `make`
invocation, and once an invocation refuses, the register is unchanged and
every invocation at that register value refuses, whatever its
arguments. -/
theorem make_writes_below_three_and_refusal_forever :
    ∀ (reg : Nat) (args : List String),
      (reg < 3 → (make reg args).reg < 3) ∧
      (make reg args = make_refusal_outcome reg →
        (make reg args).reg = reg ∧
        ∀ args2, make reg args2 = make_refusal_outcome reg) := by
  intro reg args
  constructor
  · intro h3
    rw [make_reg_spec]
    split_ifs with h
    · exact h3
    · have hc : u32_to_int reg = reg := u32_to_int_of_lt reg (by omega)
      rw [hc] at h
      rw [int_to_u32_succ]
      omega
  · intro h
    refine ⟨by rw [h]; rfl, fun args2 => ?_⟩
    exact make_refusal_eq reg args2 ((make_refused_iff reg args).mp h)

/-- C9 (witness): instantiations at register values 2 and 3. -/
theorem make_writes_below_three_and_refusal_forever_witness :
    (make 2 ["all"]).reg < 3 ∧
    (make 3 []).reg = 3 ∧
    make 3 ["flash"] = make_refusal_outcome 3 :=
  ⟨(make_writes_below_three_and_refusal_forever 2 ["all"]).1 (by decide),
   ((make_writes_below_three_and_refusal_forever 3 []).2 (by decide)).1,
   ((make_writes_below_three_and_refusal_forever 3 []).2 (by decide)).2 ["flash"]⟩

/-- C10: when the counter is below the threshold and the argument scan
ends at an unknown token, the invocation prints only the cosmetic no-rule
line, yet the incremented counter has been persisted to the register. -/
theorem make_cosmetic_error_still_persists_counter :
    ∀ (reg : Nat) (args : List String) (t : String),
      u32_to_int reg + 1 < 3 →
      makeScanArgs false false false args = ScanOut.badToken t →
      (make reg args).events = [Event.print (noRuleLine t)] ∧
      (make reg args).reg = int_to_u32 (u32_to_int reg + 1) := by
  intro reg args t h hs
  rw [make_eq_of_scan_badToken reg args t h hs]
  exact ⟨rfl, rfl⟩

/-- C10 (witness): instantiation at counter 0 with the single argument
`typo`. -/
theorem make_cosmetic_error_still_persists_counter_witness :
    u32_to_int 0 + 1 < 3 ∧
    makeScanArgs false false false ["typo"] = ScanOut.badToken "typo" ∧
    ((make 0 ["typo"]).events = [Event.print (noRuleLine "typo")] ∧
      (make 0 ["typo"]).reg = int_to_u32 (u32_to_int 0 + 1)) :=
  ⟨by decide, by decide,
   make_cosmetic_error_still_persists_counter 0 ["typo"] "typo" (by decide) (by decide)⟩
